import Mathlib

/-!
Verification development for the NycsiRenderer Vulkan renderer.

Shallow embedding of the parts of the code relevant to the frame loop
(`VulkanApp::DrawFrame`, `VulkanApp::CreateSyncObjects`), swapchain
parameter selection (`VulkanApp::CreateSwapChain`, `ChooseSwapExtent`),
texture upload and mipmap generation (`VulkanApp::CreateTextureImage`,
`VulkanApp::GenerateMipmaps`, `VulkanApp::TransitionImageLayout`), and the
staging-buffer upload path (`VulkanApp::CreateBuffer`,
`VulkanApp::CopyBuffer`, `VulkanApp::CreateVertexBuffer`).
-/

namespace NycsiRenderer

/-- The subset of `VkResult` values that `DrawFrame` distinguishes:
success, `VK_SUBOPTIMAL_KHR`, `VK_ERROR_OUT_OF_DATE_KHR`, and an arbitrary
other failure code (e.g. `VK_ERROR_DEVICE_LOST`). -/
inductive VkResult where
  | success
  | suboptimalKHR
  | errorOutOfDateKHR
  | otherError
  deriving DecidableEq, Repr

/-- Host-visible status of one of the per-slot `inFlightFences`.
`pending` means an earlier `vkQueueSubmit` named the fence and the GPU will
signal it when that submission finishes; `unsignaled` means the fence was
reset and no submission in flight will signal it. -/
inductive FenceStatus where
  | signaled
  | unsignaled
  | pending
  deriving DecidableEq, Repr

/-- Observable actions performed by one iteration of `VulkanApp::DrawFrame`,
in program order.  `waitFence k` is the return of the unbounded
`vkWaitForFences` on slot `k`'s fence, i.e. the point where that fence is
observed signaled. -/
inductive FrameEvent where
  | waitFence (slot : Nat)
  | acquireImage (slot : Nat)
  | updateUniform (slot : Nat)
  | resetFence (slot : Nat)
  | recordCommands (slot : Nat)
  | submitQueue (slot : Nat)
  | presentImage
  | recreateSwapChain
  deriving DecidableEq, Repr

/-- Exceptions `DrawFrame` can raise, plus the (non-)outcome of waiting
forever on a fence nothing will signal. -/
inductive VkError where
  | deadlock
  | acquireFailed
  | presentFailed
  deriving DecidableEq, Repr

/-- From VulkanApp.h: `const int MAX_FRAMES_IN_FLIGHT = 2;` -/
def MAX_FRAMES_IN_FLIGHT : Nat := 2

/-- The mutable state of `VulkanApp` that `DrawFrame` reads and writes:
`currentFrame`, `framebufferResized`, and the signal state of the
`inFlightFences` array (embedded as a total map from slot index). -/
structure AppState where
  currentFrame : Nat
  framebufferResized : Bool
  inFlightFences : Nat → FenceStatus

/-- Environment inputs of one `DrawFrame` iteration: the `VkResult`
returned by `vkAcquireNextImageKHR` and the one returned by
`vkQueuePresentKHR` (which the code discards). -/
structure DrawInput where
  acquireResult : VkResult
  presentResult : VkResult
  deriving DecidableEq, Repr

/-- Write one slot of the fence array. -/
def setFence (f : Nat → FenceStatus) (i : Nat) (v : FenceStatus) :
    Nat → FenceStatus :=
  fun j => if j = i then v else f j

/-- Outcome of one `DrawFrame` iteration (or of a run of iterations):
the state after it, the events it performed, and the exception it threw,
if any (`VkError.deadlock` for a wait that never returns). -/
structure DrawResult where
  state : AppState
  trace : List FrameEvent
  error : Option VkError

/-- Shallow embedding of `VulkanApp::DrawFrame` (VulkanApp.cpp).
Program order: wait on `inFlightFences[currentFrame]`; acquire (early
return + `ReCreateSwapChain` on `VK_ERROR_OUT_OF_DATE_KHR`, throw on any
result other than success/`VK_SUBOPTIMAL_KHR`); `UpdateUniformBuffer`;
`vkResetFences`; reset+record the slot's command buffer; `vkQueueSubmit`
naming the slot's fence; `vkQueuePresentKHR` — whose return value the code
drops: the post-present check reuses `result` from the acquire call; then
`currentFrame = (currentFrame + 1) % MAX_FRAMES_IN_FLIGHT`. -/
def drawFrame (s : AppState) (inp : DrawInput) : DrawResult :=
  let cf := s.currentFrame
  -- 1. vkWaitForFences(…, UINT64_MAX): returns once the fence is signaled;
  -- a pending fence is signaled when its submission retires, an unsignaled
  -- fence with no submission in flight never signals (the wait never returns).
  if s.inFlightFences cf = FenceStatus.unsignaled then
    { state := s, trace := [], error := some VkError.deadlock }
  else
    let s1 : AppState :=
      { s with inFlightFences := setFence s.inFlightFences cf FenceStatus.signaled }
    -- 2. vkAcquireNextImageKHR
    let result := inp.acquireResult
    if result = VkResult.errorOutOfDateKHR then
      { state := s1,
        trace := [FrameEvent.waitFence cf, FrameEvent.acquireImage cf,
                  FrameEvent.recreateSwapChain],
        error := none }
    else if result ≠ VkResult.success ∧ result ≠ VkResult.suboptimalKHR then
      { state := s1,
        trace := [FrameEvent.waitFence cf, FrameEvent.acquireImage cf],
        error := some VkError.acquireFailed }
    else
      -- UpdateUniformBuffer; vkResetFences; vkResetCommandBuffer +
      -- RecordCommandBuffer; vkQueueSubmit(…, inFlightFences[currentFrame]):
      -- after the submit the slot's fence is pending again.
      let s2 : AppState :=
        { s1 with inFlightFences := setFence s1.inFlightFences cf FenceStatus.pending }
      let evs := [FrameEvent.waitFence cf, FrameEvent.acquireImage cf,
                  FrameEvent.updateUniform cf, FrameEvent.resetFence cf,
                  FrameEvent.recordCommands cf, FrameEvent.submitQueue cf,
                  FrameEvent.presentImage]
      -- vkQueuePresentKHR(vkPresentQueue, &presentInfo);  — return value unused
      -- if (result == VK_ERROR_OUT_OF_DATE_KHR || result == VK_SUBOPTIMAL_KHR
      --     || framebufferResized) { framebufferResized = false; ReCreateSwapChain(); }
      -- `result` here still holds the ACQUIRE call's result.
      if result = VkResult.errorOutOfDateKHR ∨ result = VkResult.suboptimalKHR
          ∨ s2.framebufferResized = true then
        { state := { s2 with framebufferResized := false,
                             currentFrame := (cf + 1) % MAX_FRAMES_IN_FLIGHT },
          trace := evs ++ [FrameEvent.recreateSwapChain],
          error := none }
      else if result ≠ VkResult.success then
        { state := s2, trace := evs, error := some VkError.presentFailed }
      else
        { state := { s2 with currentFrame := (cf + 1) % MAX_FRAMES_IN_FLIGHT },
          trace := evs,
          error := none }

/-- Iterated `DrawFrame` as driven by `VulkanApp::MainLoop`, one
`DrawInput` per iteration; stops at the first thrown exception, keeping
the events performed up to and including the failing iteration. -/
def runFrames (s : AppState) : List DrawInput → DrawResult
  | [] => { state := s, trace := [], error := none }
  | inp :: rest =>
    if (drawFrame s inp).error.isSome then drawFrame s inp
    else
      { state := (runFrames (drawFrame s inp).state rest).state
        trace := (drawFrame s inp).trace ++
          (runFrames (drawFrame s inp).state rest).trace
        error := (runFrames (drawFrame s inp).state rest).error }

/-- State established by `VulkanApp::CreateSyncObjects` together with the
member initializers in VulkanApp.h (`currentFrame = 0`,
`framebufferResized = false`): all `MAX_FRAMES_IN_FLIGHT` fences are
created with `VK_FENCE_CREATE_SIGNALED_BIT`. -/
def createSyncObjectsState : AppState :=
  { currentFrame := 0
    framebufferResized := false
    inFlightFences := fun i =>
      if i < MAX_FRAMES_IN_FLIGHT then FenceStatus.signaled
      else FenceStatus.unsignaled }

/-- A quiescent concrete state: slot 0 active, every fence signaled, no
resize flagged — the situation after `vkDeviceWaitIdle`, say. -/
def steadyState : AppState :=
  { currentFrame := 0
    framebufferResized := false
    inFlightFences := fun _ => FenceStatus.signaled }

/-- Iteration inputs where the acquire succeeds but the present call
reports `VK_ERROR_OUT_OF_DATE_KHR`. -/
def presentOutOfDateInput : DrawInput :=
  { acquireResult := VkResult.success
    presentResult := VkResult.errorOutOfDateKHR }

/-- Iteration inputs where the acquire reports
`VK_ERROR_OUT_OF_DATE_KHR`. -/
def acquireOutOfDateInput : DrawInput :=
  { acquireResult := VkResult.errorOutOfDateKHR
    presentResult := VkResult.success }

/-- Iteration inputs where both calls succeed. -/
def succInput : DrawInput :=
  { acquireResult := VkResult.success
    presentResult := VkResult.success }

/-- Predicate on states from which no `DrawFrame` iteration can block
forever on its fence wait: the active-slot index is in range and no
in-range fence is unsignaled-without-pending-submission. -/
def NoDeadlockState (s : AppState) : Prop :=
  s.currentFrame < MAX_FRAMES_IN_FLIGHT ∧
  ∀ i, i < MAX_FRAMES_IN_FLIGHT →
    s.inFlightFences i ≠ FenceStatus.unsignaled

/-! ### Swapchain parameter selection -/

/-- Two-dimensional extent in pixels, `VkExtent2D`. -/
structure VkExtent2D where
  width : Nat
  height : Nat
  deriving DecidableEq, Repr

/-- The fields of `VkSurfaceCapabilitiesKHR` that swapchain creation reads. -/
structure VkSurfaceCapabilitiesKHR where
  minImageCount : Nat
  maxImageCount : Nat
  currentExtent : VkExtent2D
  minImageExtent : VkExtent2D
  maxImageExtent : VkExtent2D
  deriving DecidableEq, Repr

/-- Value of `std::numeric_limits<uint32_t>::max()`, the "query the window" sentinel. -/
def UINT32_MAX : Nat := 4294967295

/-- Modulus of `uint32_t` arithmetic, `2^32`. -/
def UINT32_MOD : Nat := 4294967296

/-- The swapchain image-count computation of `VulkanApp::CreateSwapChain`
(VulkanApp.cpp) and of `CreateSwapChain` in renderer/VSwapChain.cpp (the two
are identical): `uint32_t imageCount = capabilities.minImageCount + 1;`
then clamp down to `maxImageCount` when that is nonzero and exceeded.
The increment is `uint32_t` arithmetic, hence the reduction mod `2^32`. -/
def swapImageCount (minImageCount maxImageCount : Nat) : Nat :=
  let imageCount := (minImageCount + 1) % UINT32_MOD
  if 0 < maxImageCount ∧ maxImageCount < imageCount then maxImageCount
  else imageCount

/-- Behavior of `std::clamp(v, lo, hi)` on unsigned integers. -/
def stdClamp (v lo hi : Nat) : Nat :=
  if v < lo then lo else if hi < v then hi else v

/-- Embedding of `VulkanApp::ChooseSwapExtent` (VulkanApp.cpp) and `ChooseSwapExtent`
(renderer/VSwapChain.cpp), which are identical: return `currentExtent`
unless its width is the `uint32_t`-max sentinel, otherwise clamp the
window framebuffer size componentwise into
`[minImageExtent, maxImageExtent]`.  `fbWidth`/`fbHeight` stand for the
result of `glfwGetFramebufferSize`. -/
def chooseSwapExtent (capabilities : VkSurfaceCapabilitiesKHR)
    (fbWidth fbHeight : Nat) : VkExtent2D :=
  if capabilities.currentExtent.width ≠ UINT32_MAX then
    capabilities.currentExtent
  else
    { width := stdClamp fbWidth capabilities.minImageExtent.width
        capabilities.maxImageExtent.width
      height := stdClamp fbHeight capabilities.minImageExtent.height
        capabilities.maxImageExtent.height }

/-! ### Image layout transitions -/

/-- The `VkImageLayout` values this program mentions. -/
inductive VkImageLayout where
  | undefined
  | transferDstOptimal
  | transferSrcOptimal
  | shaderReadOnlyOptimal
  | colorAttachmentOptimal
  | depthStencilAttachmentOptimal
  | presentSrcKHR
  deriving DecidableEq, Repr

/-- Access-mask bit `VK_ACCESS_TRANSFER_WRITE_BIT`. -/
def VK_ACCESS_TRANSFER_WRITE_BIT : Nat := 0x00001000
/-- Access-mask bit `VK_ACCESS_SHADER_READ_BIT`. -/
def VK_ACCESS_SHADER_READ_BIT : Nat := 0x00000020
/-- Stage bit `VK_PIPELINE_STAGE_TOP_OF_PIPE_BIT`. -/
def VK_PIPELINE_STAGE_TOP_OF_PIPE_BIT : Nat := 0x00000001
/-- Stage bit `VK_PIPELINE_STAGE_TRANSFER_BIT`. -/
def VK_PIPELINE_STAGE_TRANSFER_BIT : Nat := 0x00001000
/-- Stage bit `VK_PIPELINE_STAGE_FRAGMENT_SHADER_BIT`. -/
def VK_PIPELINE_STAGE_FRAGMENT_SHADER_BIT : Nat := 0x00000080

/-- The barrier parameters `VulkanApp::TransitionImageLayout` selects for a
supported edge. -/
structure BarrierParams where
  srcAccessMask : Nat
  dstAccessMask : Nat
  sourceStage : Nat
  destinationStage : Nat
  deriving DecidableEq, Repr

/-- Shallow embedding of `VulkanApp::TransitionImageLayout`
(VulkanApp.cpp): exactly two supported edges, any other pair throws
`std::invalid_argument("unsupported layout transition!")`. -/
def transitionImageLayout (oldLayout newLayout : VkImageLayout) :
    Except String BarrierParams :=
  if oldLayout = VkImageLayout.undefined ∧
      newLayout = VkImageLayout.transferDstOptimal then
    Except.ok
      { srcAccessMask := 0
        dstAccessMask := VK_ACCESS_TRANSFER_WRITE_BIT
        sourceStage := VK_PIPELINE_STAGE_TOP_OF_PIPE_BIT
        destinationStage := VK_PIPELINE_STAGE_TRANSFER_BIT }
  else if oldLayout = VkImageLayout.transferDstOptimal ∧
      newLayout = VkImageLayout.shaderReadOnlyOptimal then
    Except.ok
      { srcAccessMask := VK_ACCESS_TRANSFER_WRITE_BIT
        dstAccessMask := VK_ACCESS_SHADER_READ_BIT
        sourceStage := VK_PIPELINE_STAGE_TRANSFER_BIT
        destinationStage := VK_PIPELINE_STAGE_FRAGMENT_SHADER_BIT }
  else
    Except.error "unsupported layout transition!"

/-! ### Mipmap generation -/

/-- From `VulkanApp::CreateTextureImage`:
`vkMipLevels = static_cast<uint32_t>(std::floor(std::log2(std::max(texWidth, texHeight)))) + 1;`
For positive integer dimensions (far below the 2^53 exactness bound of
`double`), `floor(log2 n) = Nat.log2 n`. -/
def vkMipLevelCount (texWidth texHeight : Nat) : Nat :=
  Nat.log2 (max texWidth texHeight) + 1

/-- The blit-destination dimension of `VulkanApp::GenerateMipmaps`:
`mipWidth > 1 ? mipWidth / 2 : 1` (signed division on positive values is
floor division). -/
def mipHalf (d : Nat) : Nat := if 1 < d then d / 2 else 1

/-- One `VkImageBlit` recorded by `VulkanApp::GenerateMipmaps`:
source mip level `i - 1` with extent `(srcW, srcH)`, destination mip level
`i` with extent `(dstW, dstH)`. -/
structure MipBlit where
  srcLevel : Nat
  dstLevel : Nat
  srcW : Nat
  srcH : Nat
  dstW : Nat
  dstH : Nat
  deriving DecidableEq, Repr

/-- The loop of `VulkanApp::GenerateMipmaps`
(`for (uint32_t i = 1; i < mipLevels; i++)`), unrolled on the remaining
iteration count `k`: each iteration blits level `i - 1` at
`(mipWidth, mipHeight)` onto level `i` at
`(mipWidth > 1 ? mipWidth / 2 : 1, mipHeight > 1 ? mipHeight / 2 : 1)`,
then halves `mipWidth`/`mipHeight` where still greater than 1. -/
def genMipBlitsAux : Nat → Nat → Nat → Nat → List MipBlit
  | _, _, _, 0 => []
  | i, mipWidth, mipHeight, k + 1 =>
    { srcLevel := i - 1
      dstLevel := i
      srcW := mipWidth
      srcH := mipHeight
      dstW := mipHalf mipWidth
      dstH := mipHalf mipHeight } ::
    genMipBlitsAux (i + 1)
      (if 1 < mipWidth then mipWidth / 2 else mipWidth)
      (if 1 < mipHeight then mipHeight / 2 else mipHeight)
      k

/-- The full blit sequence of `VulkanApp::GenerateMipmaps` for a base
image of `texWidth × texHeight` and `mipLevels` levels: the loop runs for
`i = 1, …, mipLevels - 1`. -/
def generateMipmapBlits (texWidth texHeight mipLevels : Nat) : List MipBlit :=
  genMipBlitsAux 1 texWidth texHeight (mipLevels - 1)

/-- The image-layout transition a barrier of `GenerateMipmaps` performs on
one mip level. -/
structure MipBarrier where
  baseMipLevel : Nat
  oldLayout : VkImageLayout
  newLayout : VkImageLayout
  deriving DecidableEq, Repr

/-- The barrier recorded by `VulkanApp::GenerateMipmaps` after its loop:
`barrier.subresourceRange.baseMipLevel = mipLevels - 1;` with
`TRANSFER_DST_OPTIMAL → SHADER_READ_ONLY_OPTIMAL`. -/
def generateMipmapsFinalBarrier (mipLevels : Nat) : MipBarrier :=
  { baseMipLevel := mipLevels - 1
    oldLayout := VkImageLayout.transferDstOptimal
    newLayout := VkImageLayout.shaderReadOnlyOptimal }

/-- Dimension of mip level `n` of a base dimension `d`, following the
halving rule of the `GenerateMipmaps` loop. -/
def mipDim : Nat → Nat → Nat
  | d, 0 => d
  | d, n + 1 => mipDim (mipHalf d) n

/-- The per-level extents of the mip chain, level 0 up to `L - 1`. -/
def mipLevelSizes (texWidth texHeight L : Nat) : List (Nat × Nat) :=
  (List.range L).map fun n => (mipDim texWidth n, mipDim texHeight n)

/-! ### Staging-buffer uploads -/

/-- A freshly created buffer of `size` bytes (`VulkanApp::CreateBuffer`
allocates `size` bytes of uninitialized memory; we take 0 as the initial
byte). Buffers are byte lists. -/
def createBuffer (size : Nat) : List Nat :=
  List.replicate size 0

/-- Behavior of `memcpy(dst, src, count)`: the first `count` bytes of `src` overwrite
the first `count` bytes of `dst`. -/
def memcpyBytes (dst src : List Nat) (count : Nat) : List Nat :=
  src.take count ++ dst.drop count

/-- The `VkBufferCopy` region recorded by `VulkanApp::CopyBuffer`:
`copyRegion.size = size;` — the full requested size, offset 0. -/
def copyBufferRegionSize (size : Nat) : Nat := size

/-- Embedding of `VulkanApp::CopyBuffer(src, dst, size)`: a one-shot command copying
`copyRegionSize size` bytes from `src` into `dst`. -/
def copyBuffer (src dst : List Nat) (size : Nat) : List Nat :=
  memcpyBytes dst src (copyBufferRegionSize size)

/-- The staging upload path of `VulkanApp::CreateVertexBuffer` (the index
buffer and texture staging follow the same shape): with
`bufferSize = raw.length`, create a host-visible staging buffer of
`bufferSize` bytes, `memcpy` the raw bytes into it, create the
device-local destination of `bufferSize` bytes, and `CopyBuffer` the
staging buffer into it; returns the destination contents after the
awaited one-shot submission (the staging buffer is then destroyed). -/
def stagingUpload (raw : List Nat) : List Nat :=
  let bufferSize := raw.length
  let staging := memcpyBytes (createBuffer bufferSize) raw bufferSize
  let destination := createBuffer bufferSize
  copyBuffer staging destination bufferSize

/-! ### Record/fence discipline on event traces -/

/-- Scanner for the per-slot record/fence discipline.  `armed` records
whether slot `slot`'s fence has been observed signaled
(a `waitFence slot` event) since the last `recordCommands slot` event.
Returns `none` when some recording on `slot` was not preceded by a fresh
observation of its fence, otherwise `some` of the final `armed` flag. -/
def scanRecordGuard (slot : Nat) : List FrameEvent → Bool → Option Bool
  | [], armed => some armed
  | FrameEvent.waitFence s :: rest, armed =>
    scanRecordGuard slot rest (if s = slot then true else armed)
  | FrameEvent.recordCommands s :: rest, armed =>
    if s = slot then
      if armed then scanRecordGuard slot rest false else none
    else scanRecordGuard slot rest armed
  | _ :: rest, armed => scanRecordGuard slot rest armed

/-- Number of `recordCommands slot` events in a trace. -/
def countRecords (slot : Nat) (tr : List FrameEvent) : Nat :=
  tr.countP fun e => e = FrameEvent.recordCommands slot

/-- Number of `waitFence slot` events (observed fence signals) in a trace. -/
def countWaits (slot : Nat) (tr : List FrameEvent) : Nat :=
  tr.countP fun e => e = FrameEvent.waitFence slot

/-- Slots recorded in a trace, in order. -/
def recordedSlots : List FrameEvent → List Nat
  | [] => []
  | FrameEvent.recordCommands s :: rest => s :: recordedSlots rest
  | _ :: rest => recordedSlots rest

/-- A concrete capabilities record whose `currentExtent` carries the
query-from-window sentinel, for evaluating `chooseSwapExtent`. -/
def sentinelCaps : VkSurfaceCapabilitiesKHR :=
  { minImageCount := 2
    maxImageCount := 0
    currentExtent := { width := UINT32_MAX, height := 100 }
    minImageExtent := { width := 200, height := 200 }
    maxImageExtent := { width := 400, height := 400 } }

/-! ## Helper lemmas -/

theorem stdClamp_mem (v lo hi : Nat) (h : lo ≤ hi) :
    lo ≤ stdClamp v lo hi ∧ stdClamp v lo hi ≤ hi := by
  unfold stdClamp
  split
  · omega
  · split <;> omega

/-! ## Claims -/

/-- Claim C6: the image layout transition operation supports exactly two edges —
undefined → transfer-destination and transfer-destination →
shader-read-only — completing those without error, and raises an
unsupported-layout-transition error for every other pair. -/
theorem transitionImageLayout_two_edges :
    (∃ p, transitionImageLayout VkImageLayout.undefined
        VkImageLayout.transferDstOptimal = Except.ok p) ∧
    (∃ p, transitionImageLayout VkImageLayout.transferDstOptimal
        VkImageLayout.shaderReadOnlyOptimal = Except.ok p) ∧
    ∀ oldLayout newLayout : VkImageLayout,
      ¬(oldLayout = VkImageLayout.undefined ∧
          newLayout = VkImageLayout.transferDstOptimal) →
      ¬(oldLayout = VkImageLayout.transferDstOptimal ∧
          newLayout = VkImageLayout.shaderReadOnlyOptimal) →
      transitionImageLayout oldLayout newLayout =
        Except.error "unsupported layout transition!" := by
  refine ⟨⟨_, rfl⟩, ⟨_, rfl⟩, ?_⟩
  intro o n h1 h2
  cases o <;> cases n <;> simp_all [transitionImageLayout]

/-- Witness for C6: a concrete unsupported pair raises the error. -/
theorem transitionImageLayout_two_edges_witness :
    transitionImageLayout VkImageLayout.shaderReadOnlyOptimal
      VkImageLayout.undefined = Except.error "unsupported layout transition!" :=
  transitionImageLayout_two_edges.2.2 _ _ (by simp) (by simp)

/-- Claim C7: the requested swapchain image count is `m + 1` when `M = 0` or
`m + 1 ≤ M`, and `M` otherwise (within `uint32_t` range); concretely
`m = 2, M = 0 ↦ 3` and `m = 2, M = 2 ↦ 2`. -/
theorem swapImageCount_spec :
    (∀ m M : Nat, m + 1 < UINT32_MOD →
      ((M = 0 ∨ m + 1 ≤ M) → swapImageCount m M = m + 1) ∧
      (M ≠ 0 → M < m + 1 → swapImageCount m M = M)) ∧
    swapImageCount 2 0 = 3 ∧ swapImageCount 2 2 = 2 := by
  refine ⟨?_, by decide, by decide⟩
  intro m M h
  have hmod : (m + 1) % UINT32_MOD = m + 1 := Nat.mod_eq_of_lt h
  unfold swapImageCount
  simp only [hmod]
  constructor
  · intro hM
    rw [if_neg (by omega)]
  · intro hM0 hMlt
    rw [if_pos ⟨by omega, by omega⟩]

/-- Witness for C7 at `m = 2, M = 0`. -/
theorem swapImageCount_spec_witness :
    swapImageCount 2 0 = 2 + 1 :=
  (swapImageCount_spec.1 2 0 (by decide)).1 (Or.inl rfl)

/-- Claim C8: `ChooseSwapExtent` returns `currentExtent` unmodified whenever its
width is not the query-from-window sentinel; otherwise it clamps the
window framebuffer size componentwise into
`[minImageExtent, maxImageExtent]`. -/
theorem chooseSwapExtent_spec :
    ∀ (capabilities : VkSurfaceCapabilitiesKHR) (fbWidth fbHeight : Nat),
      (capabilities.currentExtent.width ≠ UINT32_MAX →
        chooseSwapExtent capabilities fbWidth fbHeight =
          capabilities.currentExtent) ∧
      (capabilities.currentExtent.width = UINT32_MAX →
        (chooseSwapExtent capabilities fbWidth fbHeight).width =
            stdClamp fbWidth capabilities.minImageExtent.width
              capabilities.maxImageExtent.width ∧
        (chooseSwapExtent capabilities fbWidth fbHeight).height =
            stdClamp fbHeight capabilities.minImageExtent.height
              capabilities.maxImageExtent.height ∧
        (capabilities.minImageExtent.width ≤ capabilities.maxImageExtent.width →
          capabilities.minImageExtent.width ≤
              (chooseSwapExtent capabilities fbWidth fbHeight).width ∧
            (chooseSwapExtent capabilities fbWidth fbHeight).width ≤
              capabilities.maxImageExtent.width) ∧
        (capabilities.minImageExtent.height ≤ capabilities.maxImageExtent.height →
          capabilities.minImageExtent.height ≤
              (chooseSwapExtent capabilities fbWidth fbHeight).height ∧
            (chooseSwapExtent capabilities fbWidth fbHeight).height ≤
              capabilities.maxImageExtent.height)) := by
  intro caps fbW fbH
  constructor
  · intro h
    simp [chooseSwapExtent, h]
  · intro h
    have hne : ¬caps.currentExtent.width ≠ UINT32_MAX := fun hc => hc h
    simp only [chooseSwapExtent, if_neg hne]
    exact ⟨trivial, trivial,
      fun hlohi => stdClamp_mem fbW _ _ hlohi,
      fun hlohi => stdClamp_mem fbH _ _ hlohi⟩

/-- Witness for C8: a sentinel `currentExtent` makes the chosen extent land
inside the capability bounds. -/
theorem chooseSwapExtent_spec_witness :
    200 ≤ (chooseSwapExtent sentinelCaps 1000 50).width ∧
      (chooseSwapExtent sentinelCaps 1000 50).width ≤ 400 :=
  ((chooseSwapExtent_spec sentinelCaps 1000 50).2 rfl).2.2.1 (by decide)

/-- Claim C9: uploading `N > 0` bytes through the staging path leaves the
destination byte-identical to the input, and the recorded copy region
covers exactly `N` bytes. -/
theorem stagingUpload_roundtrip :
    ∀ raw : List Nat, 0 < raw.length →
      stagingUpload raw = raw ∧
      copyBufferRegionSize raw.length = raw.length := by
  intro raw _
  refine ⟨?_, rfl⟩
  unfold stagingUpload copyBuffer memcpyBytes createBuffer copyBufferRegionSize
  simp

/-- Witness for C9 on a concrete three-byte payload. -/
theorem stagingUpload_roundtrip_witness :
    stagingUpload [7, 3, 9] = [7, 3, 9] :=
  (stagingUpload_roundtrip [7, 3, 9] (by decide)).1

theorem setFence_ne_unsignaled (f : Nat → FenceStatus) (cf i : Nat)
    (v : FenceStatus) (hv : v ≠ FenceStatus.unsignaled)
    (hfi : f i ≠ FenceStatus.unsignaled) :
    setFence f cf v i ≠ FenceStatus.unsignaled := by
  unfold setFence
  split <;> assumption

theorem drawFrame_preserves_noDeadlock (s : AppState) (inp : DrawInput)
    (h : NoDeadlockState s) :
    (drawFrame s inp).error ≠ some VkError.deadlock ∧
    NoDeadlockState (drawFrame s inp).state := by
  obtain ⟨hcf, hf⟩ := h
  have hw : s.inFlightFences s.currentFrame ≠ FenceStatus.unsignaled :=
    hf _ hcf
  simp only [drawFrame, if_neg hw]
  split
  · exact ⟨by simp, hcf, fun i hi =>
      setFence_ne_unsignaled _ _ _ _ (by simp) (hf i hi)⟩
  · split
    · exact ⟨by simp, hcf, fun i hi =>
        setFence_ne_unsignaled _ _ _ _ (by simp) (hf i hi)⟩
    · split
      · refine ⟨by simp, Nat.mod_lt _ (by decide), fun i hi => ?_⟩
        exact setFence_ne_unsignaled _ _ _ _ (by simp)
          (setFence_ne_unsignaled _ _ _ _ (by simp) (hf i hi))
      · split
        · exact ⟨by simp, hcf, fun i hi =>
            setFence_ne_unsignaled _ _ _ _ (by simp)
              (setFence_ne_unsignaled _ _ _ _ (by simp) (hf i hi))⟩
        · refine ⟨by simp, Nat.mod_lt _ (by decide), fun i hi => ?_⟩
          exact setFence_ne_unsignaled _ _ _ _ (by simp)
            (setFence_ne_unsignaled _ _ _ _ (by simp) (hf i hi))

theorem runFrames_noDeadlock (inps : List DrawInput) :
    ∀ s : AppState, NoDeadlockState s →
      (runFrames s inps).error ≠ some VkError.deadlock ∧
      NoDeadlockState (runFrames s inps).state := by
  induction inps with
  | nil => exact fun s h => ⟨by simp [runFrames], h⟩
  | cons inp rest ih =>
    intro s h
    have hd := drawFrame_preserves_noDeadlock s inp h
    by_cases herr : (drawFrame s inp).error.isSome
    · simpa [runFrames, herr] using hd
    · have h2 := ih _ hd.2
      simp only [runFrames, if_neg herr]
      exact ⟨h2.1, h2.2⟩

/-- Claim C1 (code-bug evidence): with a successful acquire, no resize flag, and
a present call that reports out-of-date, `DrawFrame` completes and
triggers no swapchain recreation at all — the post-present check reads the
acquire call's result, the present call's return value being discarded. -/
theorem drawFrame_ignores_present_result :
    presentOutOfDateInput.presentResult = VkResult.errorOutOfDateKHR ∧
    (drawFrame steadyState presentOutOfDateInput).error = none ∧
    FrameEvent.presentImage ∈
      (drawFrame steadyState presentOutOfDateInput).trace ∧
    FrameEvent.recreateSwapChain ∉
      (drawFrame steadyState presentOutOfDateInput).trace := by
  decide

/-- Claim C2: on an out-of-date acquire the iteration aborts right after
triggering swapchain recreation: the slot's fence is not reset (it stays
signaled), nothing is recorded, submitted or presented, and the frame
index is unchanged, so the next iteration retries the same slot. -/
theorem drawFrame_acquire_out_of_date (s : AppState) (inp : DrawInput)
    (hacq : inp.acquireResult = VkResult.errorOutOfDateKHR)
    (hw : s.inFlightFences s.currentFrame ≠ FenceStatus.unsignaled) :
    (drawFrame s inp).error = none ∧
    (drawFrame s inp).state.currentFrame = s.currentFrame ∧
    (drawFrame s inp).state.inFlightFences s.currentFrame =
      FenceStatus.signaled ∧
    (drawFrame s inp).trace =
      [FrameEvent.waitFence s.currentFrame,
       FrameEvent.acquireImage s.currentFrame,
       FrameEvent.recreateSwapChain] ∧
    (∀ k, FrameEvent.resetFence k ∉ (drawFrame s inp).trace) ∧
    (∀ k, FrameEvent.recordCommands k ∉ (drawFrame s inp).trace) ∧
    (∀ k, FrameEvent.submitQueue k ∉ (drawFrame s inp).trace) ∧
    FrameEvent.presentImage ∉ (drawFrame s inp).trace := by
  have e : drawFrame s inp =
      { state :=
          { s with
            inFlightFences :=
              setFence s.inFlightFences s.currentFrame FenceStatus.signaled }
        trace :=
          [FrameEvent.waitFence s.currentFrame,
           FrameEvent.acquireImage s.currentFrame,
           FrameEvent.recreateSwapChain]
        error := none } := by
    simp [drawFrame, hw, hacq]
  rw [e]
  refine ⟨rfl, rfl, by simp [setFence], rfl, ?_, ?_, ?_, by simp⟩
  all_goals intro k; simp

/-- Witness for C2 from the quiescent state. -/
theorem drawFrame_acquire_out_of_date_witness :
    (drawFrame steadyState acquireOutOfDateInput).error = none ∧
    (drawFrame steadyState acquireOutOfDateInput).state.currentFrame = 0 := by
  have h := drawFrame_acquire_out_of_date steadyState acquireOutOfDateInput
    rfl (by decide)
  exact ⟨h.1, h.2.1⟩

/-- Claim C10: every per-slot fence is created in the signaled state
(`VK_FENCE_CREATE_SIGNALED_BIT`), and from the initial state the render
loop's unbounded fence waits can never block forever, whatever the
acquire/present outcomes. -/
theorem fences_created_signaled :
    (∀ i, i < MAX_FRAMES_IN_FLIGHT →
      createSyncObjectsState.inFlightFences i = FenceStatus.signaled) ∧
    (∀ inps : List DrawInput,
      (runFrames createSyncObjectsState inps).error ≠
        some VkError.deadlock) := by
  constructor
  · intro i hi
    simp [createSyncObjectsState, hi]
  · intro inps
    refine (runFrames_noDeadlock inps _ ⟨by decide, fun i hi => ?_⟩).1
    simp [createSyncObjectsState, hi]

/-- Witness for C10: slot 0's fence starts signaled and a first frame
cannot deadlock. -/
theorem fences_created_signaled_witness :
    createSyncObjectsState.inFlightFences 0 = FenceStatus.signaled ∧
    (runFrames createSyncObjectsState [succInput]).error ≠
      some VkError.deadlock :=
  ⟨fences_created_signaled.1 0 (by decide),
   fences_created_signaled.2 [succInput]⟩

theorem recordedSlots_append (a b : List FrameEvent) :
    recordedSlots (a ++ b) = recordedSlots a ++ recordedSlots b := by
  induction a with
  | nil => rfl
  | cons e rest ih => cases e <;> simp [recordedSlots, ih]

/-- A fully successful iteration, spelled out: successful acquire, no
resize flag, a waitable fence.  The slot's command buffer is recorded
once, the frame is submitted and presented, the slot's fence ends
pending, and `currentFrame` advances by one mod `MAX_FRAMES_IN_FLIGHT`. -/
theorem drawFrame_success_step (s : AppState) (inp : DrawInput)
    (hacq : inp.acquireResult = VkResult.success)
    (hres : s.framebufferResized = false)
    (hw : s.inFlightFences s.currentFrame ≠ FenceStatus.unsignaled) :
    drawFrame s inp =
      { state :=
          { currentFrame := (s.currentFrame + 1) % MAX_FRAMES_IN_FLIGHT
            framebufferResized := false
            inFlightFences :=
              setFence (setFence s.inFlightFences s.currentFrame
                FenceStatus.signaled) s.currentFrame FenceStatus.pending }
        trace :=
          [FrameEvent.waitFence s.currentFrame,
           FrameEvent.acquireImage s.currentFrame,
           FrameEvent.updateUniform s.currentFrame,
           FrameEvent.resetFence s.currentFrame,
           FrameEvent.recordCommands s.currentFrame,
           FrameEvent.submitQueue s.currentFrame,
           FrameEvent.presentImage]
        error := none } := by
  simp [drawFrame, hw, hacq, hres]

/-- In every `DrawFrame` iteration, either the frame index is unchanged,
or the iteration reached the present call and advanced the index by one
mod `MAX_FRAMES_IN_FLIGHT`. -/
theorem drawFrame_advance_cases (s : AppState) (inp : DrawInput) :
    (drawFrame s inp).state.currentFrame = s.currentFrame ∨
    (FrameEvent.presentImage ∈ (drawFrame s inp).trace ∧
      (drawFrame s inp).state.currentFrame =
        (s.currentFrame + 1) % MAX_FRAMES_IN_FLIGHT) := by
  by_cases hw : s.inFlightFences s.currentFrame = FenceStatus.unsignaled
  · left
    simp [drawFrame, hw]
  · simp only [drawFrame, if_neg hw]
    split
    · exact Or.inl rfl
    · split
      · exact Or.inl rfl
      · split
        · exact Or.inr ⟨by simp, rfl⟩
        · split
          · exact Or.inl rfl
          · exact Or.inr ⟨by simp, rfl⟩

/-- Claim C4: the frame index advances by `(frame_index + 1) mod N` exactly in
the iterations that reach the present call, `N = MAX_FRAMES_IN_FLIGHT =
2`, and two consecutive completed iterations with no resize record each
of the two FrameSlots exactly once and return to the starting slot. -/
theorem currentFrame_cycles :
    MAX_FRAMES_IN_FLIGHT = 2 ∧
    (∀ (s : AppState) (inp : DrawInput),
      (drawFrame s inp).state.currentFrame ≠ s.currentFrame →
      FrameEvent.presentImage ∈ (drawFrame s inp).trace ∧
      (drawFrame s inp).state.currentFrame =
        (s.currentFrame + 1) % MAX_FRAMES_IN_FLIGHT) ∧
    (∀ (s : AppState) (inp : DrawInput),
      inp.acquireResult = VkResult.success →
      s.framebufferResized = false →
      s.inFlightFences s.currentFrame ≠ FenceStatus.unsignaled →
      (drawFrame s inp).error = none ∧
      (drawFrame s inp).state.currentFrame =
        (s.currentFrame + 1) % MAX_FRAMES_IN_FLIGHT) ∧
    (∀ (s : AppState) (i1 i2 : DrawInput),
      s.currentFrame < 2 →
      s.framebufferResized = false →
      i1.acquireResult = VkResult.success →
      i2.acquireResult = VkResult.success →
      (∀ i, i < 2 → s.inFlightFences i ≠ FenceStatus.unsignaled) →
      (runFrames s [i1, i2]).error = none ∧
      recordedSlots (runFrames s [i1, i2]).trace =
        [s.currentFrame, (s.currentFrame + 1) % 2] ∧
      (recordedSlots (runFrames s [i1, i2]).trace).Nodup ∧
      (∀ j, j < 2 → j ∈ recordedSlots (runFrames s [i1, i2]).trace) ∧
      (runFrames s [i1, i2]).state.currentFrame = s.currentFrame) := by
  refine ⟨rfl, ?_, ?_, ?_⟩
  · intro s inp hne
    rcases drawFrame_advance_cases s inp with h | h
    · exact absurd h hne
    · exact h
  · intro s inp hacq hres hw
    rw [drawFrame_success_step s inp hacq hres hw]
    exact ⟨rfl, rfl⟩
  · intro s i1 i2 hcf hres h1 h2 hfen
    have hM : MAX_FRAMES_IN_FLIGHT = 2 := rfl
    have hw1 : s.inFlightFences s.currentFrame ≠ FenceStatus.unsignaled :=
      hfen _ hcf
    have e1 := drawFrame_success_step s i1 h1 hres hw1
    rw [hM] at e1
    have hne2 : (s.currentFrame + 1) % 2 ≠ s.currentFrame := by omega
    have hcf2 : (s.currentFrame + 1) % 2 < 2 := by omega
    have e2 := drawFrame_success_step
      { currentFrame := (s.currentFrame + 1) % 2
        framebufferResized := false
        inFlightFences :=
          setFence (setFence s.inFlightFences s.currentFrame
            FenceStatus.signaled) s.currentFrame FenceStatus.pending }
      i2 h2 rfl (by simpa [setFence, hne2] using hfen _ hcf2)
    rw [hM] at e2
    have hback : ((s.currentFrame + 1) % 2 + 1) % 2 = s.currentFrame := by
      omega
    refine ⟨?_, ?_, ?_, ?_, ?_⟩
    · simp [runFrames, e1, e2]
    · simp [runFrames, e1, e2, recordedSlots_append, recordedSlots]
    · simp only [runFrames, e1, e2]
      simp [recordedSlots_append, recordedSlots, List.nodup_cons]
      omega
    · intro j hj
      have hj2 : j = s.currentFrame ∨ j = (s.currentFrame + 1) % 2 := by
        omega
      simp only [runFrames, e1, e2]
      simp [recordedSlots_append, recordedSlots]
      rcases hj2 with rfl | rfl
      · exact Or.inl rfl
      · exact Or.inr rfl
    · simp [runFrames, e1, e2, hback]

/-- Witness for C4: two successful frames from the freshly initialized
state record slots 0 then 1 and return to slot 0. -/
theorem currentFrame_cycles_witness :
    (runFrames createSyncObjectsState [succInput, succInput]).error = none ∧
    recordedSlots
      (runFrames createSyncObjectsState [succInput, succInput]).trace =
      [0, 1] ∧
    (runFrames createSyncObjectsState
      [succInput, succInput]).state.currentFrame = 0 := by
  have h := currentFrame_cycles.2.2.2 createSyncObjectsState succInput succInput
    (by decide) rfl rfl rfl
    (by intro i hi
        simp [createSyncObjectsState, MAX_FRAMES_IN_FLIGHT, hi])
  exact ⟨h.1, by simpa using h.2.1, by simpa using h.2.2.2.2⟩

theorem scanRecordGuard_append (slot : Nat) (a b : List FrameEvent) :
    ∀ armed : Bool,
      scanRecordGuard slot (a ++ b) armed =
        (scanRecordGuard slot a armed).bind (scanRecordGuard slot b) := by
  induction a with
  | nil => intro armed; simp [scanRecordGuard]
  | cons e rest ih =>
    intro armed
    cases e with
    | waitFence s => simp [scanRecordGuard, ih]
    | recordCommands s =>
      simp only [List.cons_append, scanRecordGuard]
      by_cases hs : s = slot
      · by_cases ha : armed <;> simp [hs, ha, ih]
      · simp [hs, ih]
    | acquireImage s => simp [scanRecordGuard, ih]
    | updateUniform s => simp [scanRecordGuard, ih]
    | resetFence s => simp [scanRecordGuard, ih]
    | submitQueue s => simp [scanRecordGuard, ih]
    | presentImage => simp [scanRecordGuard, ih]
    | recreateSwapChain => simp [scanRecordGuard, ih]

theorem scanRecordGuard_drawFrame (s : AppState) (inp : DrawInput)
    (slot : Nat) (armed : Bool) :
    (scanRecordGuard slot (drawFrame s inp).trace armed).isSome = true := by
  by_cases hw : s.inFlightFences s.currentFrame = FenceStatus.unsignaled
  · simp [drawFrame, hw, scanRecordGuard]
  · simp only [drawFrame, if_neg hw]
    split
    · by_cases h : s.currentFrame = slot <;> simp [scanRecordGuard, h]
    · split
      · by_cases h : s.currentFrame = slot <;> simp [scanRecordGuard, h]
      · split
        · by_cases h : s.currentFrame = slot <;> simp [scanRecordGuard, h]
        · split
          · by_cases h : s.currentFrame = slot <;> simp [scanRecordGuard, h]
          · by_cases h : s.currentFrame = slot <;> simp [scanRecordGuard, h]

theorem countRecords_le_countWaits_drawFrame (s : AppState)
    (inp : DrawInput) (slot : Nat) :
    countRecords slot (drawFrame s inp).trace ≤
      countWaits slot (drawFrame s inp).trace := by
  by_cases hw : s.inFlightFences s.currentFrame = FenceStatus.unsignaled
  · simp [drawFrame, hw, countRecords, countWaits]
  · simp only [drawFrame, if_neg hw]
    split
    · by_cases h : s.currentFrame = slot <;>
        simp [countRecords, countWaits, List.count_cons, h]
    · split
      · by_cases h : s.currentFrame = slot <;>
          simp [countRecords, countWaits, List.count_cons, h]
      · split
        · by_cases h : s.currentFrame = slot <;>
            simp [countRecords, countWaits, List.count_cons, h]
        · split
          · by_cases h : s.currentFrame = slot <;>
              simp [countRecords, countWaits, List.count_cons, h]
          · by_cases h : s.currentFrame = slot <;>
              simp [countRecords, countWaits, List.count_cons, h]

/-- Claim C3: in any run of the frame loop, recording on a FrameSlot happens at
most once per observed signal of that slot's fence, and between two
consecutive recordings on the same slot there is an intervening
observed-signaled wait on that slot's fence (no overlapping record on a
slot). -/
theorem record_fence_discipline :
    ∀ (s : AppState) (inps : List DrawInput) (slot : Nat),
      (scanRecordGuard slot (runFrames s inps).trace false).isSome = true ∧
      countRecords slot (runFrames s inps).trace ≤
        countWaits slot (runFrames s inps).trace := by
  have key : ∀ (inps : List DrawInput) (s : AppState) (slot : Nat)
      (armed : Bool),
      (scanRecordGuard slot (runFrames s inps).trace armed).isSome = true ∧
      countRecords slot (runFrames s inps).trace ≤
        countWaits slot (runFrames s inps).trace := by
    intro inps
    induction inps with
    | nil =>
      intro s slot armed
      simp [runFrames, scanRecordGuard, countRecords, countWaits]
    | cons inp rest ih =>
      intro s slot armed
      by_cases herr : (drawFrame s inp).error.isSome
      · constructor
        · simpa [runFrames, herr] using
            scanRecordGuard_drawFrame s inp slot armed
        · simpa [runFrames, herr] using
            countRecords_le_countWaits_drawFrame s inp slot
      · simp only [runFrames, if_neg herr]
        constructor
        · rw [scanRecordGuard_append]
          have h1 := scanRecordGuard_drawFrame s inp slot armed
          cases hsc : scanRecordGuard slot (drawFrame s inp).trace armed with
          | none => rw [hsc] at h1; simp at h1
          | some armed2 =>
            simpa [hsc] using (ih (drawFrame s inp).state slot armed2).1
        · have hc1 := countRecords_le_countWaits_drawFrame s inp slot
          have hc2 := (ih (drawFrame s inp).state slot armed).2
          simp only [countRecords, countWaits, List.count_append,
            List.countP_append] at *
          omega
  intro s inps slot
  exact key inps s slot false

theorem one_le_mipHalf (d : Nat) : 1 ≤ mipHalf d := by
  unfold mipHalf
  split <;> omega

theorem mipNext_eq_mipHalf (w : Nat) (hw : 1 ≤ w) :
    (if 1 < w then w / 2 else w) = mipHalf w := by
  unfold mipHalf
  split <;> omega

theorem mipHalf_eq_max (d : Nat) : mipHalf d = max 1 (d / 2) := by
  unfold mipHalf
  rw [Nat.max_def]
  split <;> split <;> omega

theorem genMipBlitsAux_getElem (k : Nat) :
    ∀ (i w h n : Nat), 1 ≤ i → 1 ≤ w → 1 ≤ h → n < k →
      (genMipBlitsAux i w h k)[n]? =
        some { srcLevel := i - 1 + n, dstLevel := i + n,
               srcW := mipDim w n, srcH := mipDim h n,
               dstW := mipDim w (n + 1), dstH := mipDim h (n + 1) } := by
  induction k with
  | zero => intro i w h n _ _ _ hn; omega
  | succ k ih =>
    intro i w h n hi hw hh hn
    cases n with
    | zero =>
      simp [genMipBlitsAux, mipDim]
    | succ n =>
      rw [genMipBlitsAux]
      rw [mipNext_eq_mipHalf w hw, mipNext_eq_mipHalf h hh]
      rw [List.getElem?_cons_succ]
      rw [ih (i + 1) (mipHalf w) (mipHalf h) n (by omega)
        (one_le_mipHalf w) (one_le_mipHalf h) (by omega)]
      simp only [Option.some.injEq, MipBlit.mk.injEq]
      refine ⟨by omega, by omega, rfl, rfl, rfl, rfl⟩

theorem genMipBlitsAux_mem (k : Nat) :
    ∀ (i w h : Nat), 1 ≤ i → ∀ b ∈ genMipBlitsAux i w h k,
      b.srcLevel + 1 = b.dstLevel ∧ i ≤ b.dstLevel ∧ b.dstLevel < i + k ∧
      b.dstW = mipHalf b.srcW ∧ b.dstH = mipHalf b.srcH := by
  induction k with
  | zero => intro i w h _ b hb; simp [genMipBlitsAux] at hb
  | succ k ih =>
    intro i w h hi b hb
    rw [genMipBlitsAux, List.mem_cons] at hb
    rcases hb with rfl | hb
    · dsimp only
      exact ⟨by omega, by omega, by omega, rfl, rfl⟩
    · have h2 := ih (i + 1) _ _ (by omega) b hb
      exact ⟨h2.1, by omega, by omega, h2.2.2.2.1, h2.2.2.2.2⟩

/-- Claim C5: the mip level count is `⌊log2 (max W H)⌋ + 1`; the generation
loop blits level `i - 1` at the previous dimensions onto level `i` at
half dimensions (floor division, minimum 1 per axis) for
`i = 1 … L - 1`; the final barrier transitions level `L - 1` — never a
blit source — from transfer-destination to shader-read-only; and for
`W = 512, H = 256` the level sizes run `512×256, 256×128, …, 1×1` with
`L = 10`. -/
theorem generateMipmaps_spec :
    vkMipLevelCount 512 256 = 10 ∧
    mipLevelSizes 512 256 (vkMipLevelCount 512 256) =
      [(512, 256), (256, 128), (128, 64), (64, 32), (32, 16),
       (16, 8), (8, 4), (4, 2), (2, 1), (1, 1)] ∧
    (∀ w h L n, 1 ≤ w → 1 ≤ h → n < L - 1 →
      (generateMipmapBlits w h L)[n]? =
        some { srcLevel := n, dstLevel := n + 1,
               srcW := mipDim w n, srcH := mipDim h n,
               dstW := mipDim w (n + 1), dstH := mipDim h (n + 1) }) ∧
    (∀ w h L, ∀ b ∈ generateMipmapBlits w h L,
      b.dstLevel = b.srcLevel + 1 ∧
      b.dstW = max 1 (b.srcW / 2) ∧ b.dstH = max 1 (b.srcH / 2) ∧
      b.srcLevel < L - 1) ∧
    (∀ L, generateMipmapsFinalBarrier L =
      { baseMipLevel := L - 1
        oldLayout := VkImageLayout.transferDstOptimal
        newLayout := VkImageLayout.shaderReadOnlyOptimal }) := by
  have hL : vkMipLevelCount 512 256 = 10 := by
    simp [vkMipLevelCount, Nat.log2]
  refine ⟨hL, by rw [hL]; decide, ?_, ?_, fun L => rfl⟩
  · intro w h L n hw hh hn
    unfold generateMipmapBlits
    rw [genMipBlitsAux_getElem (L - 1) 1 w h n (by omega) hw hh (by omega)]
    simp only [Option.some.injEq, MipBlit.mk.injEq]
    refine ⟨by omega, by omega, trivial, trivial, trivial, trivial⟩
  · intro w h L b hb
    have h2 := genMipBlitsAux_mem (L - 1) 1 w h (by omega) b hb
    refine ⟨h2.1.symm, ?_, ?_, by omega⟩
    · rw [h2.2.2.2.1, mipHalf_eq_max]
    · rw [h2.2.2.2.2, mipHalf_eq_max]

/-- Witness for C5: the second blit of an `8×4` texture with 4 levels
reads level 1 at `4×2` and writes level 2 at `2×1`. -/
theorem generateMipmaps_spec_witness :
    (generateMipmapBlits 8 4 4)[1]? =
      some { srcLevel := 1, dstLevel := 2,
             srcW := 4, srcH := 2, dstW := 2, dstH := 1 } :=
  (generateMipmaps_spec.2.2.1 8 4 4 1 (by decide) (by decide)
    (by decide)).trans (by decide)

end NycsiRenderer
